import Mathlib

/-!
Shallow embedding of `src/extract_kernel.py` (ISO 9660 kernel/initrd
extractor).  Byte strings are modelled as `List Nat`; Python exceptions
as an explicit `Except PyError` result; the unbounded `while` loop of
`find_file_in_path` is step-indexed by fuel (`none` = still running
after that many iterations, i.e. divergence when it holds for all fuel).
-/

set_option maxRecDepth 8192

/-- Python exception kinds raised by the functions under study. -/
inductive PyError where
  | indexError
  | structError
  | unicodeDecodeError
  | zeroDivisionError
  deriving Repr, DecidableEq

/-- Python slice `xs[a:b]` for non-negative bounds: clamps silently. -/
def pySlice (xs : List Nat) (a b : Nat) : List Nat :=
  (xs.drop a).take (b - a)

/-- Python indexing `xs[i]`: raises IndexError when out of range. -/
def pyIndex (xs : List Nat) (i : Nat) : Except PyError Nat :=
  match xs[i]? with
  | some v => .ok v
  | none => .error .indexError

/-- `struct.unpack('<I', buf)[0]`: requires the buffer to be exactly
4 bytes, else raises `struct.error`. -/
def unpack_u32le (buf : List Nat) : Except PyError Nat :=
  if buf.length = 4 then
    .ok (buf.getD 0 0 + 256 * buf.getD 1 0 + 65536 * buf.getD 2 0 +
      16777216 * buf.getD 3 0)
  else .error .structError

/-- `struct.unpack('<H', buf)[0]`: requires exactly 2 bytes. -/
def unpack_u16le (buf : List Nat) : Except PyError Nat :=
  if buf.length = 2 then
    .ok (buf.getD 0 0 + 256 * buf.getD 1 0)
  else .error .structError

/-- `buf.decode('ascii')`: raises UnicodeDecodeError on any byte ≥ 0x80. -/
def decodeAscii (buf : List Nat) : Except PyError (List Nat) :=
  if buf.all (fun c => decide (c < 128)) then .ok buf
  else .error .unicodeDecodeError

/-- Characters removed by Python `str.strip()`. -/
def isPySpace (c : Nat) : Bool :=
  c == 32 || c == 9 || c == 10 || c == 13 || c == 11 || c == 12

/-- Python `s.strip()`: drop whitespace from both ends. -/
def pyStrip (s : List Nat) : List Nat :=
  ((s.dropWhile isPySpace).reverse.dropWhile isPySpace).reverse

/-- The dict returned by `parse_directory_record`. -/
structure DirectoryRecord where
  name : List Nat
  extent : Nat
  length : Nat
  is_dir : Bool
  record : List Nat
  deriving Repr, DecidableEq

/-- Embedding of `parse_directory_record(record_data)`
(src/extract_kernel.py lines 52-75), statement by statement and in
source order.  Note the source passes `record_data[2:6] + b"...." `
(an 8-byte buffer whenever the record has ≥ 6 bytes) to
`struct.unpack('<I', _)`, which demands exactly 4 bytes. -/
def parse_directory_record (record_data : List Nat) :
    Except PyError (Option DirectoryRecord) :=
  match record_data with
  | [] => .ok none
  | b0 :: _ =>
    if b0 = 0 then .ok none
    else do
      let length := b0
      let _ext_attr_length ← pyIndex record_data 1
      let extent_location ← unpack_u32le (pySlice record_data 2 6 ++ [0, 0, 0, 0])
      let data_length ← unpack_u32le (pySlice record_data 10 14 ++ [0, 0, 0, 0])
      let name_length ← pyIndex record_data 32
      let name0 ← decodeAscii (pySlice record_data 33 (33 + name_length))
      let name := pyStrip name0
      let flags ← pyIndex record_data 25
      let is_dir := (flags &&& 2) != 0
      pure (some { name := name, extent := extent_location,
                   length := data_length, is_dir := is_dir,
                   record := record_data.take length })

/-- One run of the inner `while offset < len(dir_data)` loop of
`find_file_in_path` (src/extract_kernel.py lines 94-115), step-indexed
by `fuel`.  `none` = the loop has not finished within `fuel` iterations;
`some (.error e)` = an exception propagates; `some (.ok none)` = loop
exit with `found = False`; `some (.ok (some e))` = `break` with a match.
When the byte at `offset` is zero the source computes
`block_size - offset % block_size` and advances only when that
remainder is `< block_size` — at a sector boundary the offset is left
unchanged. -/
def scanDir (fuel : Nat) (dir_data : List Nat) (block_size : Nat)
    (component : List Nat) (offset : Nat) :
    Option (Except PyError (Option DirectoryRecord)) :=
  match fuel with
  | 0 => none
  | fuel + 1 =>
    if offset < dir_data.length then
      let record_length := dir_data.getD offset 0
      if record_length = 0 then
        if block_size = 0 then some (.error .zeroDivisionError)
        else
          let sector_remainder := block_size - offset % block_size
          let offset' :=
            if sector_remainder < block_size then offset + sector_remainder
            else offset
          scanDir fuel dir_data block_size component offset'
      else
        let record := pySlice dir_data offset (offset + record_length)
        match parse_directory_record record with
        | .error e => some (.error e)
        | .ok none => scanDir fuel dir_data block_size component (offset + record_length)
        | .ok (some entry) =>
          if entry.name = component then some (.ok (some entry))
          else scanDir fuel dir_data block_size component (offset + record_length)
    else some (.ok none)

/-- The `for component in path_components` loop of `find_file_in_path`
(src/extract_kernel.py lines 85-120): descend one level per component,
reading each directory's extent with the clamping slice
`iso_data[extent_offset : extent_offset + current.length]`. -/
def resolveComponents (fuel : Nat) (iso_data : List Nat) (block_size : Nat) :
    DirectoryRecord → List (List Nat) →
    Option (Except PyError (Option DirectoryRecord))
  | current, [] => some (.ok (some current))
  | current, component :: rest =>
    if current.is_dir then
      let extent_offset := current.extent * block_size
      let dir_data := pySlice iso_data extent_offset (extent_offset + current.length)
      match scanDir fuel dir_data block_size component 0 with
      | none => none
      | some (.error e) => some (.error e)
      | some (.ok none) => some (.ok none)
      | some (.ok (some entry)) =>
        resolveComponents fuel iso_data block_size entry rest
    else some (.ok none)

/-- Embedding of `find_file_in_path(iso_data, root_record, block_size,
path_components)` (src/extract_kernel.py lines 77-120).  An empty
component list returns `None` immediately. -/
def find_file_in_path (fuel : Nat) (iso_data : List Nat)
    (root_record : DirectoryRecord) (block_size : Nat)
    (path_components : List (List Nat)) :
    Option (Except PyError (Option DirectoryRecord)) :=
  match path_components with
  | [] => some (.ok none)
  | _ => resolveComponents fuel iso_data block_size root_record path_components

/-- Pure content of `extract_file` (src/extract_kernel.py lines 122-131):
the bytes written to `output_path` and returned.  The Python slice
clamps at the end of `iso_data`; no bounds check is performed. -/
def extract_file (iso_data : List Nat) (file_record : DirectoryRecord)
    (block_size : Nat) : List Nat :=
  pySlice iso_data (file_record.extent * block_size)
    (file_record.extent * block_size + file_record.length)

/-- The `while True` descriptor loop of
`parse_iso9660_primary_volume_descriptor` (src/extract_kernel.py lines
16-48), starting at `offset`.  Every iteration slices a 2048-byte
sector and indexes its first byte, so once `offset` passes the end of
the image the slice is empty and `descriptor[0]` raises IndexError —
which also bounds the recursion.  `.ok none` is the Python
`return None, None` after the Terminator `break`. -/
def scanPVD (iso_data : List Nat) (offset : Nat) :
    Except PyError (Option (List Nat × Nat)) :=
  if hempty : pySlice iso_data offset (offset + 2048) = [] then .error .indexError
  else
    let descriptor := pySlice iso_data offset (offset + 2048)
    let type_code := descriptor.headD 0
    if type_code = 1 then do
      let system_id0 ← decodeAscii (pySlice descriptor 8 40)
      let _system_id := pyStrip system_id0
      let volume_id0 ← decodeAscii (pySlice descriptor 40 72)
      let _volume_id := pyStrip volume_id0
      let _volume_space_size ← unpack_u32le (pySlice descriptor 80 84)
      let _volume_set_size ← unpack_u16le (pySlice descriptor 120 122)
      let _volume_sequence_number ← unpack_u16le (pySlice descriptor 124 126)
      let logical_block_size ← unpack_u16le (pySlice descriptor 128 130)
      let _path_table_size ← unpack_u32le (pySlice descriptor 132 136)
      pure (some (pySlice descriptor 156 190, logical_block_size))
    else if type_code = 255 then .ok none
    else scanPVD iso_data (offset + 2048)
termination_by iso_data.length - offset
decreasing_by
  have hlt : offset < iso_data.length := by
    by_contra hge
    exact hempty (by
      simp [pySlice, List.drop_eq_nil_of_le (Nat.le_of_not_lt hge)])
  omega

/-- Embedding of `parse_iso9660_primary_volume_descriptor(iso_data)`
(src/extract_kernel.py lines 11-50): the scan starts at byte 0x8000. -/
def parse_iso9660_primary_volume_descriptor (iso_data : List Nat) :
    Except PyError (Option (List Nat × Nat)) :=
  scanPVD iso_data 0x8000

/-- `bytes.find`: index of the first occurrence of `needle`, scanning
left to right. -/
def bytesFindAux (needle : List Nat) : List Nat → Nat → Option Nat
  | [], i => if needle.isPrefixOf [] then some i else none
  | x :: xs, i =>
    if needle.isPrefixOf (x :: xs) then some i
    else bytesFindAux needle xs (i + 1)

/-- `haystack.find(needle)` returning `none` instead of `-1`. -/
def bytesFind (haystack needle : List Nat) : Option Nat :=
  bytesFindAux needle haystack 0

/-- The signature `b"\xb8\xc0\x07\x8e"` searched for by the fallback
branch of `main` (src/extract_kernel.py line 176). -/
def kernel_magic : List Nat := [0xb8, 0xc0, 0x07, 0x8e]

/-- The fallback scan of `main` (src/extract_kernel.py lines 176-186):
on the first match at `pos` it takes the window
`iso_data[pos : pos + 20*1024*1024]`; with no match it reports failure
(the source returns exit code 1). -/
def fallback_scan (iso_data : List Nat) : Option (List Nat) :=
  match bytesFind iso_data kernel_magic with
  | some pos => some (pySlice iso_data pos (pos + 20 * 1024 * 1024))
  | none => none

/-! ## Fixtures -/

/-- A well-formed 34-byte directory record: file "F" (byte 70),
`name_length` 1, extent 34 (little-endian at offset 2), data length 3
(little-endian at offset 10), flags byte 0 at offset 25. -/
def recF : List Nat :=
  [34, 0, 34, 0, 0, 0, 0, 0, 0, 0, 3, 0, 0, 0, 0, 0, 0, 0,
   0, 0, 0, 0, 0, 0, 0, 0, 0, 0, 0, 0, 0, 0, 1, 70]

/-- Image whose root directory content (34 bytes at extent 0, block
size 1) is `recF`, followed by the 3 file bytes `[7, 8, 9]` at
extent 34. -/
def imgC2 : List Nat := recF ++ [7, 8, 9]

/-- Root record for `imgC2`: a directory of 34 content bytes at
extent 0. -/
def rootC2 : DirectoryRecord :=
  { name := [], extent := 0, length := 34, is_dir := true, record := [] }

/-- Same record as `recF` but named "A" (byte 65). -/
def recA : List Nat :=
  [34, 0, 34, 0, 0, 0, 0, 0, 0, 0, 3, 0, 0, 0, 0, 0, 0, 0,
   0, 0, 0, 0, 0, 0, 0, 0, 0, 0, 0, 0, 0, 0, 1, 65]

/-- Root record whose 1-byte directory content is a single padding
(zero) byte. -/
def rootC4 : DirectoryRecord :=
  { name := [], extent := 0, length := 1, is_dir := true, record := [] }

/-- A 3-byte image used with a record asking for 10 bytes. -/
def imgC5 : List Nat := [1, 2, 3]

/-- File record requesting 10 bytes at extent 0 of `imgC5`. -/
def recC5 : DirectoryRecord :=
  { name := [70], extent := 0, length := 10, is_dir := false, record := [] }

/-- Image with the signature at offset 2. -/
def imgC7 : List Nat := [1, 2, 0xb8, 0xc0, 0x07, 0x8e, 9]

/-- One 2048-byte descriptor sector as the scan loop slices it:
sector `k` starts at byte `0x8000 + 2048 * k`. -/
def sector (iso_data : List Nat) (k : Nat) : List Nat :=
  pySlice iso_data (0x8000 + 2048 * k) (0x8000 + 2048 * k + 2048)

/-- A Volume Descriptor Set Terminator sector: first byte 255. -/
def termSectorW : List Nat := 255 :: List.replicate 2047 0

/-- Image whose first descriptor sector (at 0x8000) is already the
Terminator: no Primary Volume Descriptor anywhere. -/
def imgC8W : List Nat := List.replicate 32768 0 ++ termSectorW

/-- A 2048-byte Primary Volume Descriptor sector (first byte 1) whose
`system_id` field contains the non-ASCII byte 0x80 at sector offset 8. -/
def pvdBadW : List Nat :=
  1 :: (List.replicate 7 0 ++ 128 :: List.replicate 2039 0)

/-- Image with `pvdBadW` at 0x8000 followed by a Terminator sector. -/
def imgC3Bad : List Nat := List.replicate 32768 0 ++ (pvdBadW ++ termSectorW)

/-- A 2048-byte Primary Volume Descriptor sector (first byte 1) whose
remaining bytes are all zero — in particular the id fields are ASCII. -/
def pvdGoodW : List Nat := 1 :: List.replicate 2047 0

/-- Image with `pvdGoodW` at 0x8000 followed by a Terminator sector. -/
def imgC3W : List Nat := List.replicate 32768 0 ++ (pvdGoodW ++ termSectorW)

/-! ## Helper lemmas -/

theorem pySlice_length (l : List Nat) (a b : Nat) :
    (pySlice l a b).length = min (b - a) (l.length - a) := by
  simp [pySlice]

theorem pySlice_getD (l : List Nat) (a b i : Nat) (h : i < b - a) :
    (pySlice l a b).getD i 0 = l.getD (a + i) 0 := by
  simp only [pySlice, List.getD_eq_getElem?_getD]
  rw [List.getElem?_take_of_lt h, List.getElem?_drop]

theorem pySlice_append (l1 l2 : List Nat) (n b : Nat) (h : l1.length = n) :
    pySlice (l1 ++ l2) n (n + b) = l2.take b := by
  unfold pySlice
  rw [List.drop_left' h]
  congr 1
  omega

theorem scanDir_zero_at_boundary (fuel : Nat) (component : List Nat) :
    scanDir fuel [0] 2048 component 0 = none := by
  induction fuel with
  | zero => rfl
  | succ n ih => simpa [scanDir] using ih

theorem pyBind_ok {α β : Type} (a : α) (f : α → Except PyError β) :
    (Except.ok a : Except PyError α) >>= f = f a := rfl

theorem pyBind_error {α β : Type} (e : PyError) (f : α → Except PyError β) :
    (Except.error e : Except PyError α) >>= f = .error e := rfl

theorem pyPure {α : Type} (a : α) :
    (pure a : Except PyError α) = .ok a := rfl

theorem termSectorW_length : termSectorW.length = 2048 := by
  simp only [termSectorW]
  rw [List.length_cons, List.length_replicate]

theorem pvdBadW_length : pvdBadW.length = 2048 := by
  simp only [pvdBadW]
  rw [List.length_cons, List.length_append, List.length_replicate,
    List.length_cons, List.length_replicate]

theorem pvdGoodW_length : pvdGoodW.length = 2048 := by
  simp only [pvdGoodW]
  rw [List.length_cons, List.length_replicate]

theorem unpack_u32le_ok (buf : List Nat) (h : buf.length = 4) :
    unpack_u32le buf = .ok (buf.getD 0 0 + 256 * buf.getD 1 0 +
      65536 * buf.getD 2 0 + 16777216 * buf.getD 3 0) := by
  unfold unpack_u32le
  rw [if_pos h]

theorem unpack_u16le_ok (buf : List Nat) (h : buf.length = 2) :
    unpack_u16le buf = .ok (buf.getD 0 0 + 256 * buf.getD 1 0) := by
  unfold unpack_u16le
  rw [if_pos h]

theorem decodeAscii_ok (buf : List Nat) (h : ∀ c ∈ buf, c < 128) :
    decodeAscii buf = .ok buf := by
  unfold decodeAscii
  rw [if_pos]
  rw [List.all_eq_true]
  intro c hc
  exact decide_eq_true (h c hc)

/-! ## Claims -/

/-- C1: the claim states that for every byte slice whose first byte is
nonzero and that is long enough for the fixed fields,
`parse_directory_record` returns a `DirectoryRecord` without raising.
In fact for every such slice (length ≥ 6, first byte ≠ 0) the call to
`struct.unpack('<I', record_data[2:6] + b"\x00\x00\x00\x00")` receives
an 8-byte buffer for a 4-byte format and raises `struct.error`: the
decode never succeeds. -/
theorem c1_parse_record_raises (record_data : List Nat)
    (hlen : 6 ≤ record_data.length) (h0 : record_data.headD 0 ≠ 0) :
    parse_directory_record record_data = .error .structError := by
  rcases record_data with _ | ⟨b0, _ | ⟨b1, rest⟩⟩
  · simp at hlen
  · simp at hlen
  · simp only [List.headD_cons] at h0
    have hr : 4 ≤ rest.length := by
      simp only [List.length_cons] at hlen
      omega
    have htake : (rest.take 4).length = 4 := by
      simp [Nat.min_eq_left hr]
    simp only [parse_directory_record, if_neg h0]
    have h2 : pySlice (b0 :: b1 :: rest) 2 6 = rest.take 4 := by
      simp [pySlice]
    simp only [pyIndex, List.getElem?_cons_succ, List.getElem?_cons_zero]
    simp only [bind, Except.bind, h2, unpack_u32le, List.length_append,
      htake, List.length_cons, List.length_nil]
    norm_num

/-- Witness for C1 at the concrete well-formed record `recF`. -/
theorem c1_parse_record_raises_witness :
    parse_directory_record recF = .error .structError :=
  c1_parse_record_raises recF (by decide) (by decide)

/-- C2: the claim states the round trip (resolve the path, then read
the extent) returns the stored file bytes.  On the concrete
well-formed fixture `imgC2` (block size 1, root directory holding the
record of file "F" of length 3 at extent 34) `find_file_in_path`
instead propagates the `struct.error` raised by
`parse_directory_record` on the first directory entry; no record is
ever returned, so the round trip never happens. -/
theorem c2_roundtrip_raises :
    find_file_in_path 10 imgC2 rootC2 1 [[70]] = some (.error .structError) := by
  rfl

/-- C4: the claim states `find_file_in_path` always terminates, and
that on a padding (zero) record byte the offset advances to the next
multiple of `block_size`.  When the zero byte sits exactly at a sector
boundary the source computes `sector_remainder = block_size` and the
guard `sector_remainder < block_size` fails, so the offset is left
unchanged: the loop never finishes within any number of iterations
(`none` is the step-indexed reading of divergence).  Concretely the
directory content `[0]` at offset 0 with block size 2048 loops
forever. -/
theorem c4_padding_loop_diverges (fuel : Nat) :
    find_file_in_path fuel [0] rootC4 2048 [[65]] = none := by
  have h := scanDir_zero_at_boundary fuel [65]
  simp [find_file_in_path, resolveComponents, rootC4, pySlice, h]

/-- C5 counterexample: the claim states a read past the end of the
image fails with OutOfBounds.  On `imgC5` (3 bytes) with a record
demanding 10 bytes at extent 0, `extract_file` silently returns the
3-byte truncation; no error exists on this path. -/
theorem c5_counterexample :
    imgC5.length < recC5.extent * 1 + recC5.length ∧
      extract_file imgC5 recC5 1 = [1, 2, 3] := by
  decide

/-- C5 amended: whenever `extent_location * block_size + data_length`
exceeds the image length, `extract_file` silently returns the
truncated Python slice — every byte of the image from the start
offset, of length `image_length - start` — instead of failing; no
bounds check exists anywhere on the structural-read path (the
directory reads of `resolveComponents` use the same clamping
`pySlice`). -/
theorem c5_truncation (iso_data : List Nat) (file_record : DirectoryRecord)
    (block_size : Nat)
    (h : iso_data.length < file_record.extent * block_size + file_record.length) :
    extract_file iso_data file_record block_size =
      iso_data.drop (file_record.extent * block_size) ∧
    (extract_file iso_data file_record block_size).length =
      iso_data.length - file_record.extent * block_size := by
  constructor
  · unfold extract_file pySlice
    apply List.take_of_length_le
    simp only [List.length_drop]
    omega
  · unfold extract_file pySlice
    simp only [List.length_take, List.length_drop]
    omega

/-- Witness for C5 amended at `imgC5`/`recC5`. -/
theorem c5_truncation_witness :
    extract_file imgC5 recC5 1 = imgC5.drop (recC5.extent * 1) ∧
    (extract_file imgC5 recC5 1).length = imgC5.length - recC5.extent * 1 :=
  c5_truncation imgC5 recC5 1 (by decide)

/-- C6: the claim states a missed component yields the not-found
outcome `None`.  On the concrete image whose root directory holds one
well-formed entry "A" (`recA`), looking up the absent name "B" raises
`struct.error` while decoding the entry instead of returning `None`. -/
theorem c6_lookup_raises :
    find_file_in_path 10 recA
      { name := [], extent := 0, length := 34, is_dir := true, record := [] }
      1 [[66]] = some (.error .structError) := by
  rfl

/-- C9: the volume-descriptor scan is not total: on an image shorter
than 0x8001 bytes (here the empty image) the slice at 0x8000 is empty
and `descriptor[0]` raises IndexError. -/
theorem c9_short_image_raises :
    parse_iso9660_primary_volume_descriptor [] = .error .indexError := by
  rw [parse_iso9660_primary_volume_descriptor, scanPVD]
  simp [pySlice]

/-- C10: calling `find_file_in_path` with an empty component list
returns `None` (the not-found outcome), never the root record. -/
theorem c10_empty_path (fuel : Nat) (iso_data : List Nat)
    (root_record : DirectoryRecord) (block_size : Nat) :
    find_file_in_path fuel iso_data root_record block_size [] =
      some (.ok none) := rfl

theorem bytesFindAux_none (needle hay : List Nat) (i : Nat)
    (h : ∀ q, needle.isPrefixOf (hay.drop q) = false) :
    bytesFindAux needle hay i = none := by
  induction hay generalizing i with
  | nil =>
    have h0 := h 0
    rw [List.drop_zero] at h0
    simp [bytesFindAux, h0]
  | cons x xs ih =>
    have h0 := h 0
    rw [List.drop_zero] at h0
    simp only [bytesFindAux, h0, Bool.false_eq_true, if_false]
    exact ih (i + 1) (fun q => by
      have := h (q + 1)
      rwa [List.drop_succ_cons] at this)

theorem bytesFindAux_first (needle hay : List Nat) (p i : Nat)
    (hp : needle.isPrefixOf (hay.drop p) = true)
    (hmin : ∀ q, q < p → needle.isPrefixOf (hay.drop q) = false) :
    bytesFindAux needle hay i = some (i + p) := by
  induction hay generalizing p i with
  | nil =>
    cases p with
    | zero =>
      rw [List.drop_zero] at hp
      simp [bytesFindAux, hp]
    | succ p' =>
      exfalso
      have h0 := hmin 0 (Nat.succ_pos p')
      rw [List.drop_zero] at h0
      rw [List.drop_nil] at hp
      rw [hp] at h0
      simp at h0
  | cons x xs ih =>
    cases p with
    | zero =>
      rw [List.drop_zero] at hp
      simp [bytesFindAux, hp]
    | succ p' =>
      have h0 := hmin 0 (Nat.succ_pos p')
      rw [List.drop_zero] at h0
      simp only [bytesFindAux, h0, Bool.false_eq_true, if_false]
      have hrec := ih p' (i + 1)
        (by rwa [List.drop_succ_cons] at hp)
        (fun q hq => by
          have := hmin (q + 1) (Nat.succ_lt_succ hq)
          rwa [List.drop_succ_cons] at this)
      rw [hrec]
      congr 1
      omega

/-- C7: the fallback scan of `main`.  If `p` is the first offset at
which the 4-byte signature `kernel_magic` occurs, the scan returns the
window `image[p : p + 20*1024*1024]`, whose length is
`min (20 MiB) (image_length - p)`; if the signature occurs nowhere,
the scan reports no match. -/
theorem c7_fallback_scan (image : List Nat) (p : Nat) :
    ((kernel_magic.isPrefixOf (image.drop p) = true ∧
        ∀ q, q < p → kernel_magic.isPrefixOf (image.drop q) = false) →
      fallback_scan image = some (pySlice image p (p + 20 * 1024 * 1024)) ∧
        (pySlice image p (p + 20 * 1024 * 1024)).length =
          min (20 * 1024 * 1024) (image.length - p)) ∧
    ((∀ q, kernel_magic.isPrefixOf (image.drop q) = false) →
      fallback_scan image = none) := by
  constructor
  · rintro ⟨hp, hmin⟩
    constructor
    · unfold fallback_scan bytesFind
      rw [bytesFindAux_first kernel_magic image p 0 hp hmin]
      simp
    · rw [pySlice_length]
      congr 1
      omega
  · intro h
    unfold fallback_scan bytesFind
    rw [bytesFindAux_none kernel_magic image 0 h]


/-- Witness for C7: the signature sits first at offset 2 of `imgC7`,
and the scan finds it there; on the empty image there is no match. -/
theorem c7_fallback_scan_witness :
    (fallback_scan imgC7 = some (pySlice imgC7 2 (2 + 20 * 1024 * 1024)) ∧
      (pySlice imgC7 2 (2 + 20 * 1024 * 1024)).length =
        min (20 * 1024 * 1024) (imgC7.length - 2)) ∧
    fallback_scan [] = none :=
  ⟨(c7_fallback_scan imgC7 2).1 (by constructor <;> decide),
   (c7_fallback_scan [] 0).2 (fun q => by rw [List.drop_nil]; rfl)⟩

/-- C8: if the descriptor scan reaches a Terminator sector (first byte
255) at sector index `K` past 0x8000 with every earlier sector present
but neither Primary (1) nor Terminator (255), the parse returns the
`None, None` failure value (MissingVolumeDescriptor). -/
theorem c8_terminator_without_pvd (iso_data : List Nat) (K : Nat)
    (hpre : ∀ k, k < K → sector iso_data k ≠ [] ∧
      (sector iso_data k).headD 0 ≠ 1 ∧ (sector iso_data k).headD 0 ≠ 255)
    (hterm : (sector iso_data K).headD 0 = 255) :
    parse_iso9660_primary_volume_descriptor iso_data = .ok none := by
  simp only [sector] at hpre hterm
  have key : ∀ n j, j + n = K →
      scanPVD iso_data (0x8000 + 2048 * j) = .ok none := by
    intro n
    induction n with
    | zero =>
      intro j hj
      have hjK : j = K := by omega
      subst hjK
      have hne : pySlice iso_data (0x8000 + 2048 * j)
          (0x8000 + 2048 * j + 2048) ≠ [] := by
        intro he
        rw [he] at hterm
        simp at hterm
      rw [scanPVD, dif_neg hne]
      simp only []
      rw [hterm]
      norm_num
    | succ n ih =>
      intro j hj
      obtain ⟨hne, h1, h255⟩ := hpre j (by omega)
      rw [scanPVD, dif_neg hne]
      simp only []
      rw [if_neg h1, if_neg h255]
      have harith : 0x8000 + 2048 * j + 2048 = 0x8000 + 2048 * (j + 1) := by
        ring
      rw [harith]
      exact ih (j + 1) (by omega)
  have h0 := key K 0 (by omega)
  have e : 0x8000 + 2048 * 0 = 0x8000 := by norm_num
  rw [e] at h0
  exact h0

/-- Witness for C8: on `imgC8W` the very first descriptor sector is
the Terminator, and the parse reports the failure value. -/
theorem c8_terminator_without_pvd_witness :
    parse_iso9660_primary_volume_descriptor imgC8W = .ok none := by
  apply c8_terminator_without_pvd imgC8W 0
  · intro k hk
    exact absurd hk (Nat.not_lt_zero k)
  · have h : sector imgC8W 0 = termSectorW := by
      simp only [sector, imgC8W]
      have e : (32768 : Nat) + 2048 * 0 = 32768 := by norm_num
      rw [e]
      rw [pySlice_append (List.replicate 32768 0) termSectorW 32768 2048
        (List.length_replicate 32768 0)]
      exact List.take_of_length_le (le_of_eq termSectorW_length)
    rw [h]
    rfl

/-- C3 counterexample: on `imgC3Bad` — a full 2048-byte Primary Volume
Descriptor sector at 0x8000 (first byte 1) followed by a valid
Terminator sector — the parse raises UnicodeDecodeError while decoding
the `system_id` field (byte 0x80 at sector offset 8) instead of
returning the block size and root record, so the claim as stated
fails. -/
theorem c3_counterexample :
    parse_iso9660_primary_volume_descriptor imgC3Bad =
      .error .unicodeDecodeError := by
  have hslice : pySlice imgC3Bad 32768 (32768 + 2048) = pvdBadW := by
    simp only [imgC3Bad]
    rw [pySlice_append (List.replicate 32768 0) (pvdBadW ++ termSectorW)
      32768 2048 (List.length_replicate 32768 0)]
    rw [List.take_left' pvdBadW_length]
  have hne : pySlice imgC3Bad 32768 (32768 + 2048) ≠ [] := by
    rw [hslice]
    simp only [pvdBadW]
    exact List.cons_ne_nil _ _
  rw [parse_iso9660_primary_volume_descriptor, scanPVD, dif_neg hne]
  simp only []
  rw [hslice]
  rfl

/-- C3 amended: under the additional hypothesis that the id fields at
sector offsets [8:40) and [40:72) hold only ASCII bytes (< 0x80) —
forced by `c3_counterexample` — an image whose full 2048-byte sector at
0x8000 is a Primary Volume Descriptor (first byte 1), followed at some
later sector by a Terminator, parses to exactly the little-endian u16
block size at [128:130) and the raw undecoded root-record bytes at
[156:190). -/
theorem c3_pvd_parse (iso_data d : List Nat)
    (hd : pySlice iso_data 0x8000 (0x8000 + 2048) = d)
    (hlen : d.length = 2048)
    (h1 : d.headD 0 = 1)
    (hsys : ∀ c ∈ pySlice d 8 40, c < 128)
    (hvol : ∀ c ∈ pySlice d 40 72, c < 128)
    (_hterm : ∃ k, 1 ≤ k ∧
      (pySlice iso_data (0x8000 + 2048 * k)
        (0x8000 + 2048 * k + 2048)).headD 0 = 255) :
    parse_iso9660_primary_volume_descriptor iso_data =
      .ok (some (pySlice d 156 190,
        d.getD 128 0 + 256 * d.getD 129 0)) := by
  have hne : pySlice iso_data 0x8000 (0x8000 + 2048) ≠ [] := by
    rw [hd]
    intro he
    rw [he] at hlen
    simp at hlen
  have l80 : (pySlice d 80 84).length = 4 := by
    rw [pySlice_length, hlen]; decide
  have l120 : (pySlice d 120 122).length = 2 := by
    rw [pySlice_length, hlen]; decide
  have l124 : (pySlice d 124 126).length = 2 := by
    rw [pySlice_length, hlen]; decide
  have l128 : (pySlice d 128 130).length = 2 := by
    rw [pySlice_length, hlen]; decide
  have l132 : (pySlice d 132 136).length = 4 := by
    rw [pySlice_length, hlen]; decide
  rw [parse_iso9660_primary_volume_descriptor, scanPVD, dif_neg hne]
  simp only []
  rw [hd, if_pos h1]
  simp only [decodeAscii_ok (pySlice d 8 40) hsys,
    decodeAscii_ok (pySlice d 40 72) hvol,
    unpack_u32le_ok (pySlice d 80 84) l80,
    unpack_u16le_ok (pySlice d 120 122) l120,
    unpack_u16le_ok (pySlice d 124 126) l124,
    unpack_u16le_ok (pySlice d 128 130) l128,
    unpack_u32le_ok (pySlice d 132 136) l132,
    pyBind_ok, pyPure]
  rw [pySlice_getD d 128 130 0 (by norm_num),
    pySlice_getD d 128 130 1 (by norm_num)]

/-- Witness for C3 amended: `imgC3W` carries the all-ASCII PVD sector
`pvdGoodW` at 0x8000 and a Terminator at the next sector. -/
theorem c3_pvd_parse_witness :
    parse_iso9660_primary_volume_descriptor imgC3W =
      .ok (some (pySlice pvdGoodW 156 190,
        pvdGoodW.getD 128 0 + 256 * pvdGoodW.getD 129 0)) := by
  apply c3_pvd_parse imgC3W pvdGoodW
  · simp only [imgC3W]
    rw [pySlice_append (List.replicate 32768 0) (pvdGoodW ++ termSectorW)
      32768 2048 (List.length_replicate 32768 0)]
    rw [List.take_left' pvdGoodW_length]
  · exact pvdGoodW_length
  · rfl
  · decide
  · decide
  · refine ⟨1, le_refl 1, ?_⟩
    have e : (32768 : Nat) + 2048 * 1 = 34816 := by norm_num
    rw [e]
    have himg : imgC3W = (List.replicate 32768 0 ++ pvdGoodW) ++ termSectorW := by
      simp only [imgC3W]
      rw [List.append_assoc]
    have hlen2 : (List.replicate 32768 (0 : Nat) ++ pvdGoodW).length = 34816 := by
      rw [List.length_append, List.length_replicate, pvdGoodW_length]
    rw [himg]
    rw [pySlice_append (List.replicate 32768 0 ++ pvdGoodW) termSectorW
      34816 2048 hlen2]
    rw [List.take_of_length_le (le_of_eq termSectorW_length)]
    rfl
